import Mathlib

/-!
Verification of the Azure AD revoke-session action (`src/script.mjs`).

The development shallowly embeds the JavaScript source: JS strings become
Lean `String`, JS objects with known fields become structures with
`Option String` fields (absent = `none`), JS truthiness is made explicit,
and the two `fetch` calls are modelled by passing the environment's
`HttpResponse` values in as parameters while the requests the code would
issue are returned in order, so that "no network call" is the statement
that the returned request list is empty.
-/

namespace Script

/-- JS truthiness of an optional string value: `undefined` and the empty
string are falsy, every other string is truthy. -/
def truthy : Option String → Bool
  | none => false
  | some s => !s.data.isEmpty

/-- JS `a || b` on optional strings: the first operand when truthy,
otherwise the second. -/
def jsOrOpt (a b : Option String) : Option String :=
  if truthy a then a else b

/-- JS `String.prototype.startsWith`: the second string is a prefix of
the first. -/
def jsStartsWith (s p : String) : Bool :=
  p.data.isPrefixOf s.data

/-- JS `String.prototype.endsWith`: the second string is a suffix of the
first. -/
def jsEndsWith (s p : String) : Bool :=
  p.data.isSuffixOf s.data

/-- JS `s.slice(0, -1)`: the string without its final character. -/
def jsSliceDropLast (s : String) : String :=
  ⟨s.data.dropLast⟩

/-- Does the first character list occur contiguously inside the second? -/
def occursIn (needle : List Char) : List Char → Bool
  | [] => needle.isEmpty
  | c :: rest => needle.isPrefixOf (c :: rest) || occursIn needle rest

/-- JS `String.prototype.includes`: substring containment. -/
def jsIncludes (s sub : String) : Bool :=
  occursIn sub.data s.data

/-- JSON values, as produced by `response.json()`. -/
inductive Json where
  | null
  | bool (b : Bool)
  | num (n : Int)
  | str (s : String)
  | arr (items : List Json)
  | obj (fields : List (String × Json))

/-- First-match field lookup in a JSON object's field list. -/
def lookupField : List (String × Json) → String → Option Json
  | [], _ => none
  | (k, v) :: rest, key => if k = key then some v else lookupField rest key

/-- JS property access `j.key`: `none` models `undefined` (non-objects
have no own data properties). -/
def jsGet : Json → String → Option Json
  | .obj fields, key => lookupField fields key
  | _, _ => none

/-- JS truthiness of a JSON value. -/
def jsonTruthy : Json → Bool
  | .null => false
  | .bool b => b
  | .num n => n != 0
  | .str s => !s.data.isEmpty
  | .arr _ => true
  | .obj _ => true

/-- JS truthiness of a possibly `undefined` JSON value. -/
def jsTruthyOpt : Option Json → Bool
  | none => false
  | some j => jsonTruthy j

/-- JS `x || d` for a possibly `undefined` JSON value `x`. -/
def jsOrJson (x : Option Json) (d : Json) : Json :=
  match x with
  | none => d
  | some j => if jsonTruthy j then j else d

/-- Escaping of one character inside a JSON string literal, as done by
`JSON.stringify`. -/
def jsonEscapeChar (c : Char) : List Char :=
  if c = '"' then ['\\', '"']
  else if c = '\\' then ['\\', '\\']
  else if c = '\n' then ['\\', 'n']
  else if c = '\t' then ['\\', 't']
  else if c = '\r' then ['\\', 'r']
  else [c]

/-- A JSON string literal with quotes and escapes. -/
def jsonQuote (s : String) : String :=
  "\"" ++ ⟨s.data.flatMap jsonEscapeChar⟩ ++ "\""

mutual

/-- JS `JSON.stringify` on the JSON model. -/
def jsonStringify : Json → String
  | .null => "null"
  | .bool b => if b then "true" else "false"
  | .num n => toString n
  | .str s => jsonQuote s
  | .arr items => "[" ++ jsonStringifyItems items ++ "]"
  | .obj fields => "\x7b" ++ jsonStringifyFields fields ++ "\x7d"

/-- Comma-separated serialization of JSON array items. -/
def jsonStringifyItems : List Json → String
  | [] => ""
  | [x] => jsonStringify x
  | x :: y :: rest => jsonStringify x ++ "," ++ jsonStringifyItems (y :: rest)

/-- Comma-separated serialization of JSON object fields. -/
def jsonStringifyFields : List (String × Json) → String
  | [] => ""
  | [(k, v)] => jsonQuote k ++ ":" ++ jsonStringify v
  | (k, v) :: f :: rest =>
    jsonQuote k ++ ":" ++ jsonStringify v ++ "," ++ jsonStringifyFields (f :: rest)

end

/-- UTF-8 encoding of a Unicode scalar value, as a list of byte values. -/
def utf8Bytes (n : Nat) : List Nat :=
  if n < 0x80 then [n]
  else if n < 0x800 then [0xC0 + n / 0x40, 0x80 + n % 0x40]
  else if n < 0x10000 then
    [0xE0 + n / 0x1000, 0x80 + (n / 0x40) % 0x40, 0x80 + n % 0x40]
  else
    [0xF0 + n / 0x40000, 0x80 + (n / 0x1000) % 0x40, 0x80 + (n / 0x40) % 0x40,
     0x80 + n % 0x40]

/-- Uppercase hexadecimal digit for a value below 16. -/
def hexDigit (n : Nat) : Char :=
  if n < 10 then Char.ofNat (48 + n) else Char.ofNat (55 + n)

/-- Percent-encoding of one byte, e.g. 64 becomes the characters %40. -/
def percentEncodeByte (b : Nat) : List Char :=
  ['%', hexDigit (b / 16), hexDigit (b % 16)]

/-- Characters left unescaped by JS `encodeURIComponent`:
ASCII alphanumerics and the marks - _ . ! ~ * apostrophe ( ). -/
def uriUnreserved (c : Char) : Bool :=
  c.isAlphanum || c == '-' || c == '_' || c == '.' || c == '!' || c == '~' ||
    c == '*' || c == Char.ofNat 39 || c == '(' || c == ')'

/-- `encodeURIComponent` on a single character. -/
def encodeChar (c : Char) : List Char :=
  if uriUnreserved c then [c]
  else (utf8Bytes c.toNat).flatMap percentEncodeByte

/-- `encodeURIComponent` over a character list. -/
def encodeList : List Char → List Char
  | [] => []
  | c :: rest => encodeChar c ++ encodeList rest

/-- JS `encodeURIComponent`. -/
def encodeURIComponent (s : String) : String :=
  ⟨encodeList s.data⟩

/-- One character of the `application/x-www-form-urlencoded` serializer
used by `URLSearchParams.toString()`: space becomes +, alphanumerics and
* - . _ pass through, everything else is percent-encoded. -/
def formEncodeChar (c : Char) : List Char :=
  if c = ' ' then ['+']
  else if c.isAlphanum || c == '*' || c == '-' || c == '.' || c == '_' then [c]
  else (utf8Bytes c.toNat).flatMap percentEncodeByte

/-- Form-urlencoding of a whole string. -/
def formEncode (s : String) : String :=
  ⟨s.data.flatMap formEncodeChar⟩

/-- `URLSearchParams.toString()`: key=value pairs joined by &. -/
def formUrlEncode (ps : List (String × String)) : String :=
  String.intercalate "&" (ps.map fun p => formEncode p.1 ++ "=" ++ formEncode p.2)

/-- The standard base64 alphabet. -/
def base64Alphabet : List Char :=
  "ABCDEFGHIJKLMNOPQRSTUVWXYZabcdefghijklmnopqrstuvwxyz0123456789+/".data

/-- Base64 digit for a value below 64. -/
def b64Digit (n : Nat) : Char :=
  base64Alphabet.getD n '='

/-- Standard base64 encoding with padding over a byte list, as produced
by Node `Buffer.prototype.toString` with encoding base64. -/
def base64Bytes : List Nat → List Char
  | [] => []
  | [b1] => [b64Digit (b1 / 4), b64Digit (b1 % 4 * 16), '=', '=']
  | [b1, b2] => [b64Digit (b1 / 4), b64Digit (b1 % 4 * 16 + b2 / 16),
                 b64Digit (b2 % 16 * 4), '=']
  | b1 :: b2 :: b3 :: rest =>
    [b64Digit (b1 / 4), b64Digit (b1 % 4 * 16 + b2 / 16),
     b64Digit (b2 % 16 * 4 + b3 / 64), b64Digit (b3 % 64)] ++ base64Bytes rest

/-- Node `Buffer.from(s).toString` with encoding base64: base64 of the
UTF-8 bytes of the string. -/
def base64EncodeString (s : String) : String :=
  ⟨base64Bytes (s.data.flatMap fun c => utf8Bytes c.toNat)⟩

/-- An HTTP request as issued by `fetch`: URL, method, headers, and an
optional string body. -/
structure HttpRequest where
  url : String
  method : String
  headers : List (String × String)
  body : Option String

/-- An HTTP response as observed through `fetch`: status code, status
text, the raw body text (`response.text()`), and the parsed JSON body
when the text parses (`response.json()` succeeds). -/
structure HttpResponse where
  status : Nat
  statusText : String
  bodyText : String
  bodyJson : Option Json

/-- `Response.ok`: status in the inclusive range 200-299. -/
def HttpResponse.ok (r : HttpResponse) : Bool :=
  decide (200 ≤ r.status) && decide (r.status < 300)

/-- The configuration object handed to `getClientCredentialsToken`
(src/script.mjs lines 183-184): required token URL, client id and client
secret, optional scope, audience and auth style. -/
structure OAuthConfig where
  tokenUrl : String
  clientId : String
  clientSecret : String
  scope : Option String
  audience : Option String
  authStyle : Option String

/-- The `URLSearchParams` body built in `getClientCredentialsToken`
(lines 186-204): grant_type always, scope and audience when truthy,
client_id and client_secret appended when authStyle is InParams. -/
def tokenRequestBodyParams (cfg : OAuthConfig) : List (String × String) :=
  [("grant_type", "client_credentials")]
    ++ (if truthy cfg.scope then [("scope", cfg.scope.getD "")] else [])
    ++ (if truthy cfg.audience then [("audience", cfg.audience.getD "")] else [])
    ++ (if cfg.authStyle = some "InParams" then
          [("client_id", cfg.clientId), ("client_secret", cfg.clientSecret)]
        else [])

/-- The headers of the token request (lines 197-208): content type and
accept always; HTTP Basic credentials unless authStyle is InParams. -/
def tokenRequestHeaders (cfg : OAuthConfig) : List (String × String) :=
  [("Content-Type", "application/x-www-form-urlencoded"),
   ("Accept", "application/json")]
    ++ (if cfg.authStyle = some "InParams" then []
        else [("Authorization",
               "Basic " ++ base64EncodeString (cfg.clientId ++ ":" ++ cfg.clientSecret))])

/-- The POST issued by `getClientCredentialsToken` (lines 210-214). -/
def tokenRequest (cfg : OAuthConfig) : HttpRequest :=
  { url := cfg.tokenUrl
    method := "POST"
    headers := tokenRequestHeaders cfg
    body := some (formUrlEncode (tokenRequestBodyParams cfg)) }

/-- The error text embedded on a non-2xx token response (lines 217-223):
the JSON-serialized body when it parses, else the raw text. -/
def tokenErrorText (resp : HttpResponse) : String :=
  match resp.bodyJson with
  | some j => jsonStringify j
  | none => resp.bodyText

/-- Handling of the token endpoint response (lines 216-235): non-2xx
fails with status, status text and body; a 2xx body without a truthy
`access_token` fails with the malformed-token-response error; otherwise
the `access_token` value is returned. -/
def tokenResponseResult (resp : HttpResponse) : Except String Json :=
  if !resp.ok then
    Except.error ("OAuth2 token request failed: " ++ toString resp.status ++ " " ++
      resp.statusText ++ " - " ++ tokenErrorText resp)
  else
    match resp.bodyJson with
    | none => Except.error "Unexpected end of JSON input"
    | some data =>
      if !jsTruthyOpt (jsGet data "access_token") then
        Except.error "No access_token in OAuth2 response"
      else
        Except.ok ((jsGet data "access_token").getD Json.null)

/-- `getClientCredentialsToken` (lines 183-236): the request it issues
paired with the outcome for the supplied token endpoint response. -/
def getClientCredentialsToken (cfg : OAuthConfig) (resp : HttpResponse) :
    HttpRequest × Except String Json :=
  (tokenRequest cfg, tokenResponseResult resp)

/-- Address normalization in `revokeUserSessions` (line 247): strip one
trailing slash if present. -/
def cleanAddress (address : String) : String :=
  if jsEndsWith address "/" then jsSliceDropLast address else address

/-- Bearer normalization in `revokeUserSessions` (line 254): add the
Bearer prefix unless the token already starts with it. -/
def normalizeBearer (accessToken : String) : String :=
  if jsStartsWith accessToken "Bearer " then accessToken
  else "Bearer " ++ accessToken

/-- `revokeUserSessions` (lines 245-266): the POST request it issues,
built from the normalized address, the percent-encoded user principal
name and the normalized bearer token. -/
def revokeUserSessions (userPrincipalName address accessToken : String) : HttpRequest :=
  { url := cleanAddress address ++ "/v1.0/users/" ++
      encodeURIComponent userPrincipalName ++ "/revokeSignInSessions"
    method := "POST"
    headers := [("Authorization", normalizeBearer accessToken),
                ("Accept", "application/json"),
                ("Content-Type", "application/json")]
    body := none }

/-- The job input parameters of `invoke`. -/
structure Params where
  userPrincipalName : Option String
  address : Option String

/-- The environment variables read by `invoke`. -/
structure Environment where
  ADDRESS : Option String
  OAUTH2_CLIENT_CREDENTIALS_TOKEN_URL : Option String
  OAUTH2_CLIENT_CREDENTIALS_CLIENT_ID : Option String
  OAUTH2_CLIENT_CREDENTIALS_SCOPE : Option String
  OAUTH2_CLIENT_CREDENTIALS_AUDIENCE : Option String
  OAUTH2_CLIENT_CREDENTIALS_AUTH_STYLE : Option String

/-- The secrets read by `invoke`. -/
structure Secrets where
  OAUTH2_AUTHORIZATION_CODE_ACCESS_TOKEN : Option String
  OAUTH2_CLIENT_CREDENTIALS_CLIENT_SECRET : Option String

/-- The execution context: environment and secrets. -/
structure Context where
  environment : Environment
  secrets : Secrets

/-- Address resolution in `invoke` (line 309):
`params.address || context.environment?.ADDRESS`. -/
def resolveAddress (p : Params) (ctx : Context) : Option String :=
  jsOrOpt p.address ctx.environment.ADDRESS

/-- The OAuth2 configuration `invoke` builds for the client-credentials
exchange (lines 327-334). -/
def cfgOf (ctx : Context) : OAuthConfig :=
  { tokenUrl := ctx.environment.OAUTH2_CLIENT_CREDENTIALS_TOKEN_URL.getD ""
    clientId := ctx.environment.OAUTH2_CLIENT_CREDENTIALS_CLIENT_ID.getD ""
    clientSecret := ctx.secrets.OAUTH2_CLIENT_CREDENTIALS_CLIENT_SECRET.getD ""
    scope := ctx.environment.OAUTH2_CLIENT_CREDENTIALS_SCOPE
    audience := ctx.environment.OAUTH2_CLIENT_CREDENTIALS_AUDIENCE
    authStyle := ctx.environment.OAUTH2_CLIENT_CREDENTIALS_AUTH_STYLE }

/-- The success result returned by `invoke` (lines 359-363). -/
structure InvokeResult where
  status : String
  userPrincipalName : String
  value : Json

/-- The tail of `invoke` after a token is in hand (lines 342-363): issue
the revocation request; on non-2xx throw with status, status text and
body text; on 2xx parse the JSON body and return the success result with
`value: result.value || true`. -/
def finishRevocation (prior : List HttpRequest) (upn addr accessToken : String)
    (resp : HttpResponse) : List HttpRequest × Except String InvokeResult :=
  let req := revokeUserSessions upn addr accessToken
  if !resp.ok then
    (prior ++ [req],
     Except.error ("Failed to revoke sessions: " ++ toString resp.status ++ " " ++
       resp.statusText ++ ". Details: " ++ resp.bodyText))
  else
    match resp.bodyJson with
    | none => (prior ++ [req], Except.error "Unexpected end of JSON input")
    | some result =>
      (prior ++ [req],
       Except.ok { status := "success"
                   userPrincipalName := upn
                   value := jsOrJson (jsGet result "value") (Json.bool true) })

/-- `invoke` (lines 302-364). The two `HttpResponse` parameters are the
responses the environment would give to the token request and the
revocation request; the first component of the result lists the requests
actually issued, in order, and the second is the returned result or the
thrown error message. -/
def invoke (p : Params) (ctx : Context) (tokenResp revokeResp : HttpResponse) :
    List HttpRequest × Except String InvokeResult :=
  if !truthy p.userPrincipalName then
    ([], Except.error "userPrincipalName is required")
  else if !truthy (resolveAddress p ctx) then
    ([], Except.error "No URL specified. Provide either address parameter or ADDRESS environment variable")
  else
    let upn := p.userPrincipalName.getD ""
    let addr := (resolveAddress p ctx).getD ""
    if truthy ctx.secrets.OAUTH2_AUTHORIZATION_CODE_ACCESS_TOKEN then
      finishRevocation [] upn addr
        (ctx.secrets.OAUTH2_AUTHORIZATION_CODE_ACCESS_TOKEN.getD "") revokeResp
    else if truthy ctx.secrets.OAUTH2_CLIENT_CREDENTIALS_CLIENT_SECRET then
      if !truthy ctx.environment.OAUTH2_CLIENT_CREDENTIALS_TOKEN_URL ||
         !truthy ctx.environment.OAUTH2_CLIENT_CREDENTIALS_CLIENT_ID ||
         !truthy ctx.secrets.OAUTH2_CLIENT_CREDENTIALS_CLIENT_SECRET then
        ([], Except.error "OAuth2 Client Credentials flow requires TOKEN_URL, CLIENT_ID, and CLIENT_SECRET")
      else
        match getClientCredentialsToken (cfgOf ctx) tokenResp with
        | (req, Except.error m) => ([req], Except.error m)
        | (req, Except.ok (Json.str tok)) => finishRevocation [req] upn addr tok revokeResp
        | (req, Except.ok _) =>
          ([req], Except.error "TypeError: accessToken.startsWith is not a function")
    else
      ([], Except.error "OAuth2 authentication is required. Configure either Authorization Code or Client Credentials flow.")

/-- A thrown JS error, as seen by the `error` handler: the code only
reads its `message`. -/
structure JsError where
  message : String

/-- The recovery result returned by the `error` handler. -/
structure ErrorResult where
  status : String

/-- The `error` handler (lines 372-391): retry on messages containing
429, 502, 503 or 504; re-throw the original error on 401 or 403;
otherwise retry by default. `Except.error` models the re-throw. -/
def errorHandler (e : JsError) : Except JsError ErrorResult :=
  if jsIncludes e.message "429" || jsIncludes e.message "502" ||
     jsIncludes e.message "503" || jsIncludes e.message "504" then
    Except.ok { status := "retry_requested" }
  else if jsIncludes e.message "401" || jsIncludes e.message "403" then
    Except.error e
  else
    Except.ok { status := "retry_requested" }

/-- The constant path portion appended after the cleaned base address in
`revokeUserSessions` (line 251). -/
def revokePath (upn : String) : String :=
  "/v1.0/users/" ++ encodeURIComponent upn ++ "/revokeSignInSessions"

/-- Characters that can appear in `encodeURIComponent` output: unreserved
characters, the percent sign, and uppercase hexadecimal digits. -/
def safeChar (c : Char) : Bool :=
  uriUnreserved c || c == '%' || c.isDigit || (decide ('A' ≤ c) && decide (c ≤ 'F'))

/-- Statement of claim C3 about `revokeUserSessions`: the request URL is
the address with exactly one trailing slash stripped followed by the
fixed path with the percent-encoded identifier, and the path holds no
raw reserved character, only percent-encoded forms. -/
def RevokeUrlProp (address upn token : String) : Prop :=
  (revokeUserSessions upn address token).url =
      cleanAddress address ++ "/v1.0/users/" ++ encodeURIComponent upn ++
        "/revokeSignInSessions" ∧
  (revokeUserSessions upn address token).url = cleanAddress address ++ revokePath upn ∧
  (jsEndsWith address "/" = true → cleanAddress address ++ "/" = address) ∧
  (jsEndsWith address "/" = false → cleanAddress address = address) ∧
  ('@' ∉ (revokePath upn).data ∧ '+' ∉ (revokePath upn).data ∧
    ' ' ∉ (revokePath upn).data) ∧
  ('@' ∈ upn.data → "%40".data <:+: (revokePath upn).data) ∧
  ('+' ∈ upn.data → "%2B".data <:+: (revokePath upn).data) ∧
  (' ' ∈ upn.data → "%20".data <:+: (revokePath upn).data)

/-- Statement of claim C7 about the token request built by
`getClientCredentialsToken`: form-encoded body with `grant_type` always,
`scope` and `audience` exactly when configured, and the client
credentials delivered in the body for the InParams auth style and as
HTTP Basic credentials in the Authorization header for every other
style. -/
def TokenRequestProp (cfg : OAuthConfig) : Prop :=
  (tokenRequest cfg).body = some (formUrlEncode (tokenRequestBodyParams cfg)) ∧
  (tokenRequest cfg).url = cfg.tokenUrl ∧
  ("grant_type", "client_credentials") ∈ tokenRequestBodyParams cfg ∧
  (truthy cfg.scope = true → ("scope", cfg.scope.getD "") ∈ tokenRequestBodyParams cfg) ∧
  ("scope" ∈ (tokenRequestBodyParams cfg).map Prod.fst ↔ truthy cfg.scope = true) ∧
  (truthy cfg.audience = true →
    ("audience", cfg.audience.getD "") ∈ tokenRequestBodyParams cfg) ∧
  ("audience" ∈ (tokenRequestBodyParams cfg).map Prod.fst ↔ truthy cfg.audience = true) ∧
  (cfg.authStyle = some "InParams" →
     ("client_id", cfg.clientId) ∈ tokenRequestBodyParams cfg ∧
     ("client_secret", cfg.clientSecret) ∈ tokenRequestBodyParams cfg ∧
     "Authorization" ∉ (tokenRequestHeaders cfg).map Prod.fst) ∧
  (cfg.authStyle ≠ some "InParams" →
     ("Authorization",
        "Basic " ++ base64EncodeString (cfg.clientId ++ ":" ++ cfg.clientSecret)) ∈
          tokenRequestHeaders cfg ∧
     "client_id" ∉ (tokenRequestBodyParams cfg).map Prod.fst ∧
     "client_secret" ∉ (tokenRequestBodyParams cfg).map Prod.fst)

/-- Statement of claim C1 (amended) about `invoke`'s token acquisition:
a truthy pre-issued token makes the revocation request with that token
the only network call; without it, a truthy client secret with
configured token URL and client id makes the token request the first
network call; a truthy client secret with missing token URL or client id
fails with no network call; with neither secret, invoke fails with the
OAuth2-authentication-required error and no network call. -/
def TokenAcquirerProp (p : Params) (ctx : Context) (tr rr : HttpResponse) : Prop :=
  (truthy ctx.secrets.OAUTH2_AUTHORIZATION_CODE_ACCESS_TOKEN = true →
     (invoke p ctx tr rr).1 =
       [revokeUserSessions (p.userPrincipalName.getD "")
          ((resolveAddress p ctx).getD "")
          (ctx.secrets.OAUTH2_AUTHORIZATION_CODE_ACCESS_TOKEN.getD "")]) ∧
  (truthy ctx.secrets.OAUTH2_AUTHORIZATION_CODE_ACCESS_TOKEN = false →
   truthy ctx.secrets.OAUTH2_CLIENT_CREDENTIALS_CLIENT_SECRET = true →
   truthy ctx.environment.OAUTH2_CLIENT_CREDENTIALS_TOKEN_URL = true →
   truthy ctx.environment.OAUTH2_CLIENT_CREDENTIALS_CLIENT_ID = true →
     (invoke p ctx tr rr).1.head? = some (tokenRequest (cfgOf ctx))) ∧
  (truthy ctx.secrets.OAUTH2_AUTHORIZATION_CODE_ACCESS_TOKEN = false →
   truthy ctx.secrets.OAUTH2_CLIENT_CREDENTIALS_CLIENT_SECRET = true →
   (truthy ctx.environment.OAUTH2_CLIENT_CREDENTIALS_TOKEN_URL = false ∨
    truthy ctx.environment.OAUTH2_CLIENT_CREDENTIALS_CLIENT_ID = false) →
     invoke p ctx tr rr =
       ([], Except.error "OAuth2 Client Credentials flow requires TOKEN_URL, CLIENT_ID, and CLIENT_SECRET")) ∧
  (truthy ctx.secrets.OAUTH2_AUTHORIZATION_CODE_ACCESS_TOKEN = false →
   truthy ctx.secrets.OAUTH2_CLIENT_CREDENTIALS_CLIENT_SECRET = false →
     invoke p ctx tr rr =
       ([], Except.error "OAuth2 authentication is required. Configure either Authorization Code or Client Credentials flow.") ∧
     jsIncludes "OAuth2 authentication is required. Configure either Authorization Code or Client Credentials flow."
       "OAuth2 authentication is required" = true)

theorem string_data_append (a b : String) : (a ++ b).data = a.data ++ b.data := rfl

theorem char_toNat_lt_unicode (c : Char) : c.toNat < 0x110000 := by
  rcases c.valid with h | h
  · exact Nat.lt_trans h (by norm_num)
  · exact h.2

theorem utf8Bytes_lt_256 {n : Nat} (hn : n < 0x110000) :
    ∀ b ∈ utf8Bytes n, b < 256 := by
  intro b hb
  unfold utf8Bytes at hb
  split_ifs at hb <;> simp [List.mem_cons] at hb <;> omega

theorem hexDigit_safe : ∀ m, m < 16 → safeChar (hexDigit m) = true := by decide

theorem mem_percentEncodeByte_safe {b : Nat} (hb : b < 256) :
    ∀ x ∈ percentEncodeByte b, safeChar x = true := by
  intro x hx
  simp [percentEncodeByte] at hx
  rcases hx with rfl | rfl | rfl
  · decide
  · exact hexDigit_safe _ (by omega)
  · exact hexDigit_safe _ (by omega)

theorem mem_encodeChar_safe {c x : Char} (hx : x ∈ encodeChar c) : safeChar x = true := by
  cases h : uriUnreserved c with
  | true =>
    simp [encodeChar, h] at hx
    subst hx
    simp [safeChar, h]
  | false =>
    simp [encodeChar, h, List.mem_flatMap] at hx
    obtain ⟨b, hb, hxb⟩ := hx
    exact mem_percentEncodeByte_safe (utf8Bytes_lt_256 (char_toNat_lt_unicode c) b hb) x hxb

theorem mem_encodeList_safe {x : Char} {l : List Char} (hx : x ∈ encodeList l) :
    safeChar x = true := by
  induction l with
  | nil => simp [encodeList] at hx
  | cons c rest ih =>
    simp only [encodeList, List.mem_append] at hx
    rcases hx with h | h
    · exact mem_encodeChar_safe h
    · exact ih h

theorem encodeChar_occurs {c : Char} {l : List Char} (hc : c ∈ l) :
    encodeChar c <:+: encodeList l := by
  induction l with
  | nil => simp at hc
  | cons a rest ih =>
    simp only [encodeList]
    rcases List.mem_cons.mp hc with rfl | h
    · exact (List.prefix_append _ _).isInfix
    · exact (ih h).trans (List.suffix_append _ _).isInfix

theorem startsWith_bearer_append (t : String) :
    jsStartsWith ("Bearer " ++ t) "Bearer " = true := by
  simp [jsStartsWith, string_data_append, List.isPrefixOf_iff_prefix]

theorem revokePath_data (upn : String) :
    (revokePath upn).data =
      "/v1.0/users/".data ++ (encodeList upn.data ++ "/revokeSignInSessions".data) := by
  simp [revokePath, string_data_append, encodeURIComponent, List.append_assoc]

theorem not_mem_revokePath {x : Char} (hx : safeChar x = false)
    (h1 : x ∉ "/v1.0/users/".data) (h2 : x ∉ "/revokeSignInSessions".data)
    (upn : String) : x ∉ (revokePath upn).data := by
  rw [revokePath_data]
  intro hmem
  rcases List.mem_append.mp hmem with h | h
  · exact h1 h
  · rcases List.mem_append.mp h with h | h
    · exact absurd (mem_encodeList_safe h) (by simp [hx])
    · exact h2 h

theorem encoded_within_revokePath {c : Char} {upn : String} (hc : c ∈ upn.data) :
    encodeChar c <:+: (revokePath upn).data := by
  rw [revokePath_data]
  exact (encodeChar_occurs hc).trans (List.infix_append' _ _ _)

/-- Claim C3.  For every base address and non-empty user principal name,
the Session Revoker's URL is the address with exactly one trailing slash
stripped (an address ending in a double slash keeps one slash) followed by
the path with the URI-component-encoded identifier, and reserved
characters in the identifier occur in the path only percent-encoded. -/
theorem revoke_url_construction (address upn token : String) (h : upn ≠ "") :
    RevokeUrlProp address upn token := by
  refine ⟨rfl, ?_, ?_, ?_, ⟨?_, ?_, ?_⟩, ?_, ?_, ?_⟩
  · apply String.ext
    simp [revokeUserSessions, revokePath, string_data_append, List.append_assoc]
  · intro hs
    simp only [jsEndsWith, List.isSuffixOf_iff_suffix] at hs
    obtain ⟨t, ht⟩ := hs
    apply String.ext
    rw [string_data_append]
    simp only [cleanAddress, jsEndsWith, jsSliceDropLast]
    rw [if_pos (by simp [List.isSuffixOf_iff_suffix]; exact ⟨t, ht⟩)]
    show (address.data.dropLast : List Char) ++ ['/'] = address.data
    have ht' : t ++ ['/'] = address.data := ht
    rw [← ht', List.dropLast_concat]
  · intro hs
    simp [cleanAddress, hs]
  · exact not_mem_revokePath (by decide) (by decide) (by decide) upn
  · exact not_mem_revokePath (by decide) (by decide) (by decide) upn
  · exact not_mem_revokePath (by decide) (by decide) (by decide) upn
  · intro hc
    have h40 : encodeChar '@' = "%40".data := by decide
    exact h40 ▸ encoded_within_revokePath hc
  · intro hc
    have h2b : encodeChar '+' = "%2B".data := by decide
    exact h2b ▸ encoded_within_revokePath hc
  · intro hc
    have h20 : encodeChar ' ' = "%20".data := by decide
    exact h20 ▸ encoded_within_revokePath hc

/-- Witness for C3 at a concrete address ending in a slash and an
identifier containing all three reserved characters. -/
theorem revoke_url_construction_witness :
    RevokeUrlProp "https://graph.microsoft.com/" "user name@ex+a.com" "tok" :=
  revoke_url_construction "https://graph.microsoft.com/" "user name@ex+a.com" "tok"
    (by decide)

/-- Claim C4.  The Authorization header of the revocation request is the
normalized token: a token without the Bearer marker gets it prepended, an
already-marked token is sent unchanged, the result always starts with the
marker, and normalization is idempotent. -/
theorem authorization_bearer_normalization (upn addr t : String) :
    (revokeUserSessions upn addr t).headers =
      [("Authorization", normalizeBearer t), ("Accept", "application/json"),
       ("Content-Type", "application/json")] ∧
    (jsStartsWith t "Bearer " = false → normalizeBearer t = "Bearer " ++ t) ∧
    (jsStartsWith t "Bearer " = true → normalizeBearer t = t) ∧
    jsStartsWith (normalizeBearer t) "Bearer " = true ∧
    normalizeBearer (normalizeBearer t) = normalizeBearer t := by
  refine ⟨rfl, fun h => by simp [normalizeBearer, h],
    fun h => by simp [normalizeBearer, h], ?_, ?_⟩
  · cases h : jsStartsWith t "Bearer " with
    | true => rw [normalizeBearer, if_pos h]; exact h
    | false => simp [normalizeBearer, h, startsWith_bearer_append]
  · cases h : jsStartsWith t "Bearer " with
    | true => simp [normalizeBearer, h]
    | false => simp [normalizeBearer, h, startsWith_bearer_append]

/-- Witness for C4 at a concrete unprefixed token. -/
theorem authorization_bearer_normalization_witness :
    (revokeUserSessions "u@x" "https://a" "tk-1").headers =
      [("Authorization", normalizeBearer "tk-1"), ("Accept", "application/json"),
       ("Content-Type", "application/json")] ∧
    (jsStartsWith "tk-1" "Bearer " = false → normalizeBearer "tk-1" = "Bearer " ++ "tk-1") ∧
    (jsStartsWith "tk-1" "Bearer " = true → normalizeBearer "tk-1" = "tk-1") ∧
    jsStartsWith (normalizeBearer "tk-1") "Bearer " = true ∧
    normalizeBearer (normalizeBearer "tk-1") = normalizeBearer "tk-1" :=
  authorization_bearer_normalization "u@x" "https://a" "tk-1"

/-- Counterexample for claim C9 as frozen: the message contains 403, yet
the classifier returns the retry signal instead of re-raising, because it
also contains 429 and the retryable check runs first. -/
theorem error_classifier_counterexample :
    jsIncludes "HTTP 429 after 403" "403" = true ∧
    errorHandler ⟨"HTTP 429 after 403"⟩ = Except.ok { status := "retry_requested" } :=
  ⟨rfl, rfl⟩

/-- Claim C9 (amended).  The classifier is a pure function of the message:
a message containing 429, 502, 503 or 504 yields the retry signal; a
message containing 401 or 403 and none of the retryable codes re-raises
the original error unchanged; a message containing none of these yields
the retry signal by default. -/
theorem error_classifier_classification (e : JsError) :
    ((jsIncludes e.message "429" || jsIncludes e.message "502" ||
      jsIncludes e.message "503" || jsIncludes e.message "504") = true →
       errorHandler e = Except.ok { status := "retry_requested" }) ∧
    ((jsIncludes e.message "429" || jsIncludes e.message "502" ||
      jsIncludes e.message "503" || jsIncludes e.message "504") = false →
     (jsIncludes e.message "401" || jsIncludes e.message "403") = true →
       errorHandler e = Except.error e) ∧
    ((jsIncludes e.message "429" || jsIncludes e.message "502" ||
      jsIncludes e.message "503" || jsIncludes e.message "504") = false →
     (jsIncludes e.message "401" || jsIncludes e.message "403") = false →
       errorHandler e = Except.ok { status := "retry_requested" }) :=
  ⟨fun h => by simp [errorHandler, h],
   fun h1 h2 => by simp [errorHandler, h1, h2],
   fun h1 h2 => by simp [errorHandler, h1, h2]⟩

/-- Witness for C9 at a concrete fatal message. -/
theorem error_classifier_classification_witness :
    errorHandler ⟨"got 401 unauthorized"⟩ = Except.error ⟨"got 401 unauthorized"⟩ :=
  (error_classifier_classification ⟨"got 401 unauthorized"⟩).2.1 (by decide) (by decide)

/-- Claim C10.  When a message contains both a retryable code and a fatal
code, the retryable check runs first, so the classifier returns the retry
signal rather than re-raising. -/
theorem retryable_beats_fatal (e : JsError)
    (hretry : (jsIncludes e.message "429" || jsIncludes e.message "502" ||
               jsIncludes e.message "503" || jsIncludes e.message "504") = true)
    (hfatal : (jsIncludes e.message "401" || jsIncludes e.message "403") = true) :
    errorHandler e = Except.ok { status := "retry_requested" } := by
  simp [errorHandler, hretry]

/-- Witness for C10 at a message containing both 502 and 401. -/
theorem retryable_beats_fatal_witness :
    errorHandler ⟨"502 while refreshing after 401"⟩ =
      Except.ok { status := "retry_requested" } :=
  retryable_beats_fatal ⟨"502 while refreshing after 401"⟩ (by decide) (by decide)

/-- Claim C2.  A missing or empty user principal name fails fast with a
descriptive error and no network call; with a valid identifier but no
truthy address from either the parameter or the environment, invoke fails
fast with no network call; a truthy address parameter takes precedence
over the environment default. -/
theorem invoke_validates_input (p : Params) (ctx : Context) (tr rr : HttpResponse) :
    (truthy p.userPrincipalName = false →
       invoke p ctx tr rr = ([], Except.error "userPrincipalName is required")) ∧
    (truthy p.userPrincipalName = true → truthy p.address = false →
     truthy ctx.environment.ADDRESS = false →
       invoke p ctx tr rr =
         ([], Except.error "No URL specified. Provide either address parameter or ADDRESS environment variable")) ∧
    (truthy p.address = true → truthy ctx.environment.ADDRESS = true →
       resolveAddress p ctx = p.address) := by
  refine ⟨fun h => by simp [invoke, h], fun h1 h2 h3 => ?_, fun h _ => ?_⟩
  · have hra : truthy (resolveAddress p ctx) = false := by
      simp [resolveAddress, jsOrOpt, h2, h3]
    simp [invoke, h1, hra]
  · simp [resolveAddress, jsOrOpt, h]

/-- Witness for C2: empty user principal name fails fast at a concrete
input. -/
theorem invoke_validates_input_witness :
    invoke ⟨some "", some "https://a"⟩
        ⟨⟨some "https://a", none, none, none, none, none⟩, ⟨some "t", none⟩⟩
        ⟨200, "OK", "", none⟩ ⟨200, "OK", "", none⟩ =
      ([], Except.error "userPrincipalName is required") :=
  (invoke_validates_input ⟨some "", some "https://a"⟩
      ⟨⟨some "https://a", none, none, none, none, none⟩, ⟨some "t", none⟩⟩
      ⟨200, "OK", "", none⟩ ⟨200, "OK", "", none⟩).1 (by decide)

theorem finishRevocation_fst (prior : List HttpRequest) (upn addr t : String)
    (r : HttpResponse) :
    (finishRevocation prior upn addr t r).1 = prior ++ [revokeUserSessions upn addr t] := by
  unfold finishRevocation
  cases hok : r.ok with
  | false => simp [hok]
  | true => cases hj : r.bodyJson <;> simp [hok, hj]

/-- Claim C7.  Shape of the client-credentials token request: form-encoded
body with grant_type always, scope and audience exactly when configured,
and the client credentials in the body for InParams and as a Basic
Authorization header for every other auth style. -/
theorem token_request_construction (cfg : OAuthConfig) : TokenRequestProp cfg := by
  unfold TokenRequestProp
  by_cases hp : cfg.authStyle = some "InParams" <;>
    by_cases hs : truthy cfg.scope <;>
      by_cases ha : truthy cfg.audience <;>
        simp [tokenRequest, tokenRequestBodyParams, tokenRequestHeaders, hp, hs, ha]

/-- Witness for C7 at a concrete configuration with a scope, no audience,
and the default auth style. -/
theorem token_request_construction_witness :
    TokenRequestProp ⟨"https://login/token", "client-1", "s3cr3t", some "user.rw", none, none⟩ :=
  token_request_construction ⟨"https://login/token", "client-1", "s3cr3t", some "user.rw", none, none⟩

/-- Counterexample for claim C8 as frozen: a 2xx body that has an
`access_token` field holding the empty string is rejected with the
malformed-token-response error instead of being returned. -/
theorem token_response_counterexample :
    jsGet (Json.obj [("access_token", Json.str "")]) "access_token" =
      some (Json.str "") ∧
    (getClientCredentialsToken ⟨"https://t", "id", "sec", none, none, none⟩
        ⟨200, "OK", "", some (Json.obj [("access_token", Json.str "")])⟩).2 =
      Except.error "No access_token in OAuth2 response" :=
  ⟨rfl, rfl⟩

/-- Claim C8 (amended).  A non-2xx token response fails with status,
reason phrase and body (JSON-serialized when parseable, else raw text)
embedded in the message; a 2xx body whose `access_token` is absent or
falsy fails with the distinct malformed-token-response error; a 2xx body
with a truthy `access_token` returns that value. -/
theorem token_response_handling (cfg : OAuthConfig) (resp : HttpResponse) :
    (resp.ok = false →
       (getClientCredentialsToken cfg resp).2 =
         Except.error ("OAuth2 token request failed: " ++ toString resp.status ++ " " ++
           resp.statusText ++ " - " ++ tokenErrorText resp)) ∧
    (resp.ok = true → ∀ j, resp.bodyJson = some j →
       (jsTruthyOpt (jsGet j "access_token") = false →
          (getClientCredentialsToken cfg resp).2 =
            Except.error "No access_token in OAuth2 response") ∧
       (∀ tok, jsGet j "access_token" = some tok → jsonTruthy tok = true →
          (getClientCredentialsToken cfg resp).2 = Except.ok tok)) := by
  constructor
  · intro h
    simp [getClientCredentialsToken, tokenResponseResult, h]
  · intro h j hj
    constructor
    · intro hfalsy
      simp [getClientCredentialsToken, tokenResponseResult, h, hj, hfalsy]
    · intro tok htok htruthy
      simp [getClientCredentialsToken, tokenResponseResult, h, hj, htok,
        jsTruthyOpt, htruthy]

/-- Witness for C8 at a concrete 2xx response carrying a token. -/
theorem token_response_handling_witness :
    (getClientCredentialsToken ⟨"https://t", "id", "sec", none, none, none⟩
        ⟨200, "OK", "", some (Json.obj [("access_token", Json.str "tok-123")])⟩).2 =
      Except.ok (Json.str "tok-123") :=
  ((token_response_handling ⟨"https://t", "id", "sec", none, none, none⟩
      ⟨200, "OK", "", some (Json.obj [("access_token", Json.str "tok-123")])⟩).2
    (by decide) (Json.obj [("access_token", Json.str "tok-123")]) rfl).2
    (Json.str "tok-123") rfl rfl

/-- Counterexample for claim C1 as frozen: the client secret is present
(and the pre-issued token absent), yet no client-credentials exchange
runs — invoke throws the missing-configuration error with no network
call, because the token URL is not configured. -/
theorem token_acquirer_counterexample :
    truthy (Secrets.mk none (some "sec")).OAUTH2_CLIENT_CREDENTIALS_CLIENT_SECRET = true ∧
    invoke ⟨some "u@x", some "https://a"⟩
        ⟨⟨none, none, some "id", none, none, none⟩, ⟨none, some "sec"⟩⟩
        ⟨200, "OK", "", none⟩ ⟨200, "OK", "", none⟩ =
      ([], Except.error "OAuth2 Client Credentials flow requires TOKEN_URL, CLIENT_ID, and CLIENT_SECRET") :=
  ⟨rfl, rfl⟩

/-- Claim C1 (amended).  First-match-wins credential selection in
`invoke`: pre-issued token used verbatim with no token request; else a
truthy client secret selects the client-credentials variant, whose
exchange runs exactly when token URL and client id are configured and
which otherwise fails with no network call; else the
OAuth2-authentication-required error with no network call. -/
theorem token_acquirer_selection (p : Params) (ctx : Context) (tr rr : HttpResponse)
    (hupn : truthy p.userPrincipalName = true)
    (haddr : truthy (resolveAddress p ctx) = true) :
    TokenAcquirerProp p ctx tr rr := by
  unfold TokenAcquirerProp
  refine ⟨fun h => ?_, fun h1 h2 h3 h4 => ?_, fun h1 h2 h3 => ?_, fun h1 h2 => ?_⟩
  · simp [invoke, hupn, haddr, h, finishRevocation_fst]
  · simp only [invoke, hupn, haddr, h1, h2, h3, h4, getClientCredentialsToken]
    simp only [Bool.not_true, Bool.false_or, Bool.or_self, Bool.not_false]
    cases htr : tokenResponseResult tr with
    | error m => simp [htr]
    | ok j => cases j <;> simp [htr, finishRevocation_fst]
  · rcases h3 with h3 | h3 <;>
      simp [invoke, hupn, haddr, h1, h2, h3]
  · exact ⟨by simp [invoke, hupn, haddr, h1, h2], by decide⟩

/-- Witness for C1 with a pre-issued token present alongside
client-credentials secrets. -/
theorem token_acquirer_selection_witness :
    TokenAcquirerProp ⟨some "u@x", none⟩
      ⟨⟨some "https://a", some "https://tok", some "id", none, none, none⟩,
       ⟨some "pre-tok", some "sec"⟩⟩
      ⟨200, "OK", "", none⟩ ⟨200, "OK", "", none⟩ :=
  token_acquirer_selection ⟨some "u@x", none⟩
    ⟨⟨some "https://a", some "https://tok", some "id", none, none, none⟩,
     ⟨some "pre-tok", some "sec"⟩⟩
    ⟨200, "OK", "", none⟩ ⟨200, "OK", "", none⟩ (by decide) (by decide)

theorem jsonTruthy_jsOrJson_true (x : Option Json) :
    jsonTruthy (jsOrJson x (Json.bool true)) = true := by
  cases x with
  | none => rfl
  | some v =>
    cases ht : jsonTruthy v with
    | true => simp [jsOrJson, ht]
    | false =>
      have h2 : jsOrJson (some v) (Json.bool true) = Json.bool true := by
        simp [jsOrJson, ht]
      rw [h2]
      rfl

/-- Claim C5.  On a 2xx revocation response with parseable JSON body,
invoke returns the success result carrying the input identifier and a
`value` that is the body's `value` field when truthy and `true`
otherwise; the returned value is always truthy, hence never `false`. -/
theorem invoke_success_result (p : Params) (ctx : Context) (tr rr : HttpResponse)
    (j : Json)
    (hupn : truthy p.userPrincipalName = true)
    (haddr : truthy (resolveAddress p ctx) = true)
    (htok : truthy ctx.secrets.OAUTH2_AUTHORIZATION_CODE_ACCESS_TOKEN = true)
    (hok : rr.ok = true) (hj : rr.bodyJson = some j) :
    (invoke p ctx tr rr).2 =
      Except.ok { status := "success"
                  userPrincipalName := p.userPrincipalName.getD ""
                  value := jsOrJson (jsGet j "value") (Json.bool true) } ∧
    (jsTruthyOpt (jsGet j "value") = true →
       jsOrJson (jsGet j "value") (Json.bool true) = (jsGet j "value").getD Json.null) ∧
    (jsTruthyOpt (jsGet j "value") = false →
       jsOrJson (jsGet j "value") (Json.bool true) = Json.bool true) ∧
    jsonTruthy (jsOrJson (jsGet j "value") (Json.bool true)) = true ∧
    jsOrJson (jsGet j "value") (Json.bool true) ≠ Json.bool false := by
  refine ⟨?_, ?_, ?_, ?_, ?_⟩
  · simp [invoke, hupn, haddr, htok, finishRevocation, hok, hj]
  · intro ht
    cases hget : jsGet j "value" with
    | none => simp [hget, jsTruthyOpt] at ht
    | some v => simp [hget, jsTruthyOpt] at ht; simp [jsOrJson, ht]
  · intro ht
    cases hget : jsGet j "value" with
    | none => simp [jsOrJson]
    | some v => simp [hget, jsTruthyOpt] at ht; simp [jsOrJson, ht]
  · exact jsonTruthy_jsOrJson_true (jsGet j "value")
  · intro hfalse
    have h3 := jsonTruthy_jsOrJson_true (jsGet j "value")
    rw [hfalse] at h3
    simp [jsonTruthy] at h3

/-- Witness for C5 at a response whose body is the object with `value`
set to `false`: the returned value is still `true`. -/
theorem invoke_success_result_witness :
    (invoke ⟨some "user@example.com", none⟩
        ⟨⟨some "https://graph.microsoft.com", none, none, none, none, none⟩,
         ⟨some "test-token", none⟩⟩
        ⟨200, "OK", "", none⟩
        ⟨200, "OK", "", some (Json.obj [("value", Json.bool false)])⟩).2 =
      Except.ok { status := "success"
                  userPrincipalName := (some "user@example.com").getD ""
                  value := jsOrJson (jsGet (Json.obj [("value", Json.bool false)]) "value")
                             (Json.bool true) } ∧
    (jsTruthyOpt (jsGet (Json.obj [("value", Json.bool false)]) "value") = true →
       jsOrJson (jsGet (Json.obj [("value", Json.bool false)]) "value") (Json.bool true) =
         (jsGet (Json.obj [("value", Json.bool false)]) "value").getD Json.null) ∧
    (jsTruthyOpt (jsGet (Json.obj [("value", Json.bool false)]) "value") = false →
       jsOrJson (jsGet (Json.obj [("value", Json.bool false)]) "value") (Json.bool true) =
         Json.bool true) ∧
    jsonTruthy (jsOrJson (jsGet (Json.obj [("value", Json.bool false)]) "value")
      (Json.bool true)) = true ∧
    jsOrJson (jsGet (Json.obj [("value", Json.bool false)]) "value") (Json.bool true) ≠
      Json.bool false :=
  invoke_success_result ⟨some "user@example.com", none⟩
    ⟨⟨some "https://graph.microsoft.com", none, none, none, none, none⟩,
     ⟨some "test-token", none⟩⟩
    ⟨200, "OK", "", none⟩
    ⟨200, "OK", "", some (Json.obj [("value", Json.bool false)])⟩
    (Json.obj [("value", Json.bool false)])
    (by decide) (by decide) (by decide) (by decide) rfl

/-- Claim C6.  On a non-2xx revocation response, invoke throws, and the
message embeds the numeric status, the status text, and the raw body. -/
theorem invoke_error_on_failure (p : Params) (ctx : Context) (tr rr : HttpResponse)
    (hupn : truthy p.userPrincipalName = true)
    (haddr : truthy (resolveAddress p ctx) = true)
    (htok : truthy ctx.secrets.OAUTH2_AUTHORIZATION_CODE_ACCESS_TOKEN = true)
    (hfail : rr.ok = false) :
    (invoke p ctx tr rr).2 =
      Except.error ("Failed to revoke sessions: " ++ toString rr.status ++ " " ++
        rr.statusText ++ ". Details: " ++ rr.bodyText) ∧
    (toString rr.status).data <:+:
      ("Failed to revoke sessions: " ++ toString rr.status ++ " " ++
        rr.statusText ++ ". Details: " ++ rr.bodyText).data ∧
    rr.statusText.data <:+:
      ("Failed to revoke sessions: " ++ toString rr.status ++ " " ++
        rr.statusText ++ ". Details: " ++ rr.bodyText).data ∧
    rr.bodyText.data <:+:
      ("Failed to revoke sessions: " ++ toString rr.status ++ " " ++
        rr.statusText ++ ". Details: " ++ rr.bodyText).data := by
  refine ⟨?_, ?_, ?_, ?_⟩
  · simp [invoke, hupn, haddr, htok, finishRevocation, hfail]
  · exact ⟨"Failed to revoke sessions: ".data,
      (" " ++ rr.statusText ++ ". Details: " ++ rr.bodyText).data,
      by simp [string_data_append, List.append_assoc]⟩
  · exact ⟨("Failed to revoke sessions: " ++ toString rr.status ++ " ").data,
      (". Details: " ++ rr.bodyText).data,
      by simp [string_data_append, List.append_assoc]⟩
  · exact ⟨("Failed to revoke sessions: " ++ toString rr.status ++ " " ++
        rr.statusText ++ ". Details: ").data, [],
      by simp [string_data_append, List.append_assoc]⟩

/-- Witness for C6 at a 404 response with body "User not found". -/
theorem invoke_error_on_failure_witness :
    (invoke ⟨some "user@example.com", none⟩
        ⟨⟨some "https://graph.microsoft.com", none, none, none, none, none⟩,
         ⟨some "test-token", none⟩⟩
        ⟨200, "OK", "", none⟩
        ⟨404, "Not Found", "User not found", none⟩).2 =
      Except.error ("Failed to revoke sessions: " ++ toString 404 ++ " " ++
        "Not Found" ++ ". Details: " ++ "User not found") ∧
    (toString 404).data <:+:
      ("Failed to revoke sessions: " ++ toString 404 ++ " " ++
        "Not Found" ++ ". Details: " ++ "User not found").data ∧
    ("Not Found" : String).data <:+:
      ("Failed to revoke sessions: " ++ toString 404 ++ " " ++
        "Not Found" ++ ". Details: " ++ "User not found").data ∧
    ("User not found" : String).data <:+:
      ("Failed to revoke sessions: " ++ toString 404 ++ " " ++
        "Not Found" ++ ". Details: " ++ "User not found").data :=
  invoke_error_on_failure ⟨some "user@example.com", none⟩
    ⟨⟨some "https://graph.microsoft.com", none, none, none, none, none⟩,
     ⟨some "test-token", none⟩⟩
    ⟨200, "OK", "", none⟩
    ⟨404, "Not Found", "User not found", none⟩
    (by decide) (by decide) (by decide) (by decide)

end Script
